import Mathlib

/-!
Verification of `cobra/core/configuration.py` (the global `Configuration` object).

The Python class is embedded shallowly:

* Numeric values (`numbers.Number` / `float`) are modelled by `ℚ`; the literals
  appearing in the source (`1e-07`, `-1000.0`, `1000.0`) are exact rationals.
* A Python module object (`types.ModuleType`) that may or may not expose a
  `Model` attribute is modelled by `ModuleType`, with a `hasModel` flag for
  `hasattr(value, "Model")` and a display string for its interpolation into
  f-strings.
* The external solver registry `cobra.util.solver.solvers` (a dict from name
  to interface module) is a parameter `Registry`, an association list; Python
  membership/indexing is `List.lookup`, and `", ".join(SOLVERS)` over the dict
  keys is `joinComma`.
* The possible arguments to the `solver` setter — any Python object — split by
  the `isinstance` checks of the source into strings, modules, and all other
  objects (`SolverValue.obj`, carrying whether the object has a `Model`
  attribute).
* Raising an exception is `Except.error`; the error carries the exception
  together with the state of the object at the moment of the raise, so that
  "no partial update" claims are expressible.  Mutation is state passing:
  each setter maps the old `Configuration` to the new one.
* `os.cpu_count()` (int or None) is a parameter `Option Nat`; the warning
  logged when it returns None is the `Bool` component returned by
  `set_default_processes`.
-/

namespace Cobra

/-- A Python module object as seen by the solver setter: `hasModel` records
`hasattr(value, "Model")`, `mname` is its display form inside an f-string. -/
structure ModuleType where
  mname : String
  hasModel : Bool
deriving DecidableEq

/-- The external solver registry `cobra.util.solver.solvers`: a mapping from
solver-name string to interface module, as an association list. -/
abbrev Registry := List (String × ModuleType)

/-- `", ".join(keys)`: Python's comma-space join over the registry keys. -/
def joinComma : List String → String
  | [] => ""
  | [k] => k
  | k :: k' :: ks => k ++ ", " ++ joinComma (k' :: ks)

/-- An arbitrary Python object passed to the `solver` setter, split according
to the `isinstance` tests of the source: a `str`, a `types.ModuleType`
(with its `hasattr(value, "Model")` result inside), or any other object
(with its `hasattr(value, "Model")` result and display form). -/
inductive SolverValue where
  | str (s : String)
  | module (m : ModuleType)
  | obj (hasModel : Bool) (oname : String)
deriving DecidableEq

/-- The f-string display of the value inside the error message. -/
def SolverValue.display : SolverValue → String
  | .str s => s
  | .module m => m.mname
  | .obj _ o => o

/-- The exceptions the source can raise: `SolverNotFound(msg)` from the
`solver` setter and `AssertionError` from the `assert` in the `bounds`
setter. -/
inductive ConfigError where
  | solverNotFound (msg : String)
  | assertionError
deriving DecidableEq

/-- The message of the `SolverNotFound` exception built at the top of the
`solver` setter:
`f"'{value}' is not a valid solver interface.  Please pick one from {', '.join(SOLVERS)}."`
(the two adjacent f-string literals of the source leave a double space). -/
def notValidMessage (value : SolverValue) (reg : Registry) : String :=
  "'" ++ value.display ++ "' is not a valid solver interface. " ++
    " Please pick one from " ++ joinComma (reg.map Prod.fst) ++ "."

/-- The state of the `Configuration` singleton: the five attributes set in
`__init__`.  `_solver` holds the optlang interface module; `processes` is
`None` until `_set_default_processes` runs. -/
structure Configuration where
  _solver : Option ModuleType
  tolerance : ℚ
  lower_bound : Option ℚ
  upper_bound : Option ℚ
  processes : Option Nat
deriving DecidableEq

/-- The `solver` property getter: `return self._solver`. -/
def Configuration.solver_get (c : Configuration) : Option ModuleType :=
  c._solver

/-- The `bounds` property getter: `return self.lower_bound, self.upper_bound`. -/
def Configuration.bounds_get (c : Configuration) : Option ℚ × Option ℚ :=
  (c.lower_bound, c.upper_bound)

/-- The `solver` property setter.  Mirrors the source statement by statement:
build `not_valid_interface`; if the value is a string, membership in
`SOLVERS` decides between `interface = SOLVERS[value]` and the raise; if it
is a module with a `Model` attribute, `interface = value`; otherwise raise.
Only after all raises does `self._solver = interface` run, so an error
carries the untouched state. -/
def Configuration.solver_set (reg : Registry) (c : Configuration)
    (value : SolverValue) : Except (ConfigError × Configuration) Configuration :=
  let not_valid_interface := ConfigError.solverNotFound (notValidMessage value reg)
  match value with
  | SolverValue.str s =>
      match reg.lookup s with
      | some interface => Except.ok { c with _solver := some interface }
      | none => Except.error (not_valid_interface, c)
  | SolverValue.module m =>
      if m.hasModel then Except.ok { c with _solver := some m }
      else Except.error (not_valid_interface, c)
  | SolverValue.obj _ _ => Except.error (not_valid_interface, c)

/-- The `bounds` property setter: `if None not in bounds: assert bounds[0] <=
bounds[1]`, then assign `lower_bound` and `upper_bound`.  The assert runs
before either assignment, so a failure carries the untouched state. -/
def Configuration.bounds_set (c : Configuration)
    (bounds : Option ℚ × Option ℚ) : Except (ConfigError × Configuration) Configuration :=
  match bounds with
  | (some lo, some hi) =>
      if lo ≤ hi then
        Except.ok { c with lower_bound := some lo, upper_bound := some hi }
      else Except.error (ConfigError.assertionError, c)
  | (lo, hi) => Except.ok { c with lower_bound := lo, upper_bound := hi }

/-- The loop body of `_set_default_solver`: `try: self.solver = name; except
SolverNotFound: continue; else: break`.  A `SolverNotFound` raise is caught
and the loop continues from the state carried by the exception; any other
exception would propagate. -/
def tryCandidates (reg : Registry) (c : Configuration) :
    List String → Except (ConfigError × Configuration) Configuration
  | [] => Except.ok c
  | n :: ns =>
      match Configuration.solver_set reg c (SolverValue.str n) with
      | Except.ok c' => Except.ok c'
      | Except.error (ConfigError.solverNotFound _, c') => tryCandidates reg c' ns
      | Except.error (ConfigError.assertionError, c') =>
          Except.error (ConfigError.assertionError, c')

/-- `_set_default_solver`: probe `["gurobi", "cplex", "glpk"]` in order. -/
def Configuration.set_default_solver (reg : Registry) (c : Configuration) :
    Except (ConfigError × Configuration) Configuration :=
  tryCandidates reg c ["gurobi", "cplex", "glpk"]

/-- `_set_default_processes`: `self.processes = cpu_count()`; on `None` log a
warning (the returned `Bool`) and use 1; then subtract 1 when greater
than 1. -/
def Configuration.set_default_processes (cpuCount : Option Nat)
    (c : Configuration) : Configuration × Bool :=
  let pw : Nat × Bool :=
    match cpuCount with
    | none => (1, true)
    | some n => (n, false)
  let p := if pw.1 > 1 then pw.1 - 1 else pw.1
  ({ c with processes := some p }, pw.2)

/-- `__init__`: set the five attributes to their initial values, then
`self.bounds = -1000.0, 1000.0`, then `_set_default_solver`, then
`_set_default_processes`.  An exception in any step would propagate. -/
def Configuration.init (reg : Registry) (cpuCount : Option Nat) :
    Except (ConfigError × Configuration) (Configuration × Bool) :=
  let c0 : Configuration :=
    { _solver := none, tolerance := 1 / 10000000,
      lower_bound := none, upper_bound := none, processes := none }
  match c0.bounds_set (some (-1000), some 1000) with
  | Except.error e => Except.error e
  | Except.ok c1 =>
      match Configuration.set_default_solver reg c1 with
      | Except.error e => Except.error e
      | Except.ok c2 => Except.ok (Configuration.set_default_processes cpuCount c2)

/-- Modelled from the spec: the `Singleton` metaclass lives in
`cobra/core/singleton.py`, which is not part of the excerpt.  Per the spec,
`Configuration()` is idempotent — it returns the existing instance if one was
already constructed, and otherwise constructs, caches and returns a fresh
instance.  The process-wide instance cell is an `Option Configuration`
threaded explicitly; mutating the shared instance means writing the new
state into the cell. -/
def constructOrFetch (reg : Registry) (cpuCount : Option Nat)
    (store : Option Configuration) :
    Except (ConfigError × Configuration) (Configuration × Option Configuration) :=
  match store with
  | some c => Except.ok (c, some c)
  | none =>
      match Configuration.init reg cpuCount with
      | Except.ok (c, _) => Except.ok (c, some c)
      | Except.error e => Except.error e

/-- The invariant of the data model: whenever both bounds are non-null, the
lower one is at most the upper one. -/
def BoundsInv (c : Configuration) : Prop :=
  ∀ lo hi, c.lower_bound = some lo → c.upper_bound = some hi → lo ≤ hi

/-- `part` occurs contiguously inside `whole` (the message "lists" it). -/
def occursIn (part whole : List Char) : Prop :=
  ∃ a b, whole = a ++ part ++ b

theorem occursIn_refl (p : List Char) : occursIn p p :=
  ⟨[], [], by simp⟩

theorem occursIn_append_left (pre : List Char) {p w : List Char}
    (h : occursIn p w) : occursIn p (pre ++ w) := by
  obtain ⟨a, b, rfl⟩ := h
  exact ⟨pre ++ a, b, by simp⟩

theorem occursIn_append_right (post : List Char) {p w : List Char}
    (h : occursIn p w) : occursIn p (w ++ post) := by
  obtain ⟨a, b, rfl⟩ := h
  exact ⟨a, b ++ post, by simp⟩

/-- Every member of `ks` occurs inside the comma-space join of `ks`. -/
theorem occursIn_joinComma {k : String} : ∀ {ks : List String}, k ∈ ks →
    occursIn k.data (joinComma ks).data := by
  intro ks
  induction ks with
  | nil => intro h; cases h
  | cons k' ks ih =>
    intro hmem
    cases ks with
    | nil =>
      rw [List.mem_singleton.mp hmem]
      exact occursIn_refl _
    | cons k'' ks' =>
      rcases List.mem_cons.mp hmem with rfl | htail
      · show occursIn k.data ((k ++ ", " ++ joinComma (k'' :: ks')).data)
        rw [String.data_append, String.data_append, List.append_assoc]
        exact occursIn_append_right _ (occursIn_refl _)
      · show occursIn k.data ((k' ++ ", " ++ joinComma (k'' :: ks')).data)
        rw [String.data_append]
        exact occursIn_append_left _ (ih htail)

/-- Character-level decomposition of the `SolverNotFound` message. -/
theorem notValidMessage_data (v : SolverValue) (reg : Registry) :
    (notValidMessage v reg).data =
      ("'").data ++ (v.display.data ++
        (("' is not a valid solver interface. ").data ++
          ((" Please pick one from ").data ++
            ((joinComma (reg.map Prod.fst)).data ++ (".").data)))) := by
  simp [notValidMessage, String.data_append]

/-- The displayed value occurs in the `SolverNotFound` message. -/
theorem display_occursIn_message (v : SolverValue) (reg : Registry) :
    occursIn v.display.data (notValidMessage v reg).data := by
  rw [notValidMessage_data]
  exact occursIn_append_left _ (occursIn_append_right _ (occursIn_refl _))

/-- Every registry key occurs in the `SolverNotFound` message. -/
theorem key_occursIn_message (v : SolverValue) (reg : Registry)
    {k : String} (hk : k ∈ reg.map Prod.fst) :
    occursIn k.data (notValidMessage v reg).data := by
  rw [notValidMessage_data]
  exact occursIn_append_left _ (occursIn_append_left _ (occursIn_append_left _
    (occursIn_append_left _ (occursIn_append_right _ (occursIn_joinComma hk)))))

/-- `_set_default_solver`'s probe loop never raises and touches no attribute
other than `_solver`. -/
theorem tryCandidates_ok (reg : Registry) :
    ∀ (ns : List String) (c : Configuration), ∃ c',
      tryCandidates reg c ns = Except.ok c' ∧
      c'.tolerance = c.tolerance ∧ c'.lower_bound = c.lower_bound ∧
      c'.upper_bound = c.upper_bound ∧ c'.processes = c.processes := by
  intro ns
  induction ns with
  | nil => intro c; exact ⟨c, rfl, rfl, rfl, rfl, rfl⟩
  | cons n ns ih =>
    intro c
    cases hl : reg.lookup n with
    | some i =>
      refine ⟨{ c with _solver := some i }, ?_, rfl, rfl, rfl, rfl⟩
      simp [tryCandidates, Configuration.solver_set, hl]
    | none =>
      obtain ⟨c', h1, h2, h3, h4, h5⟩ := ih c
      refine ⟨c', ?_, h2, h3, h4, h5⟩
      simp [tryCandidates, Configuration.solver_set, hl, h1]

/-- A sample interface module (`optlang.glpk_interface`), for witnesses. -/
def glpkMod : ModuleType := { mname := "optlang.glpk_interface", hasModel := true }

/-- A sample configuration state, for witnesses. -/
def sampleConfig : Configuration :=
  { _solver := none, tolerance := 1 / 10000000,
    lower_bound := some (-1000), upper_bound := some 1000, processes := some 1 }

/-- C1: for every pair `(lo, hi)` of optional numeric values with `lo <= hi`
or with at least one element null, assigning `bounds = (lo, hi)` succeeds,
and afterwards the `bounds` getter returns exactly `(lo, hi)`, with the
`lower_bound` getter equal to `lo` and the `upper_bound` getter equal to
`hi`. -/
theorem C1_bounds_roundtrip (c : Configuration) (lo hi : Option ℚ)
    (h : lo = none ∨ hi = none ∨ ∃ l u, lo = some l ∧ hi = some u ∧ l ≤ u) :
    ∃ c', c.bounds_set (lo, hi) = Except.ok c' ∧ c'.bounds_get = (lo, hi) ∧
      c'.lower_bound = lo ∧ c'.upper_bound = hi := by
  rcases h with rfl | rfl | ⟨l, u, rfl, rfl, hle⟩
  · cases hi <;> exact ⟨_, rfl, rfl, rfl, rfl⟩
  · cases lo <;> exact ⟨_, rfl, rfl, rfl, rfl⟩
  · exact ⟨{ c with lower_bound := some l, upper_bound := some u },
      by simp [Configuration.bounds_set, hle], rfl, rfl, rfl⟩

theorem C1_witness :
    ∃ c', sampleConfig.bounds_set (some 1, some 2) = Except.ok c' ∧
      c'.bounds_get = (some 1, some 2) ∧
      c'.lower_bound = some 1 ∧ c'.upper_bound = some 2 :=
  C1_bounds_roundtrip sampleConfig (some 1) (some 2)
    (Or.inr (Or.inr ⟨1, 2, rfl, rfl, by norm_num⟩))

/-- C2: for every pair `(lo, hi)` with both elements non-null and `lo > hi`,
assigning `bounds = (lo, hi)` fails with the assertion error and performs no
partial update: the state carried at the raise is exactly the prior state,
so `lower_bound` and `upper_bound` retain the values they had before the
assignment. -/
theorem C2_bounds_reject (c : Configuration) (lo hi : ℚ) (hgt : hi < lo) :
    c.bounds_set (some lo, some hi) = Except.error (ConfigError.assertionError, c) := by
  simp [Configuration.bounds_set, not_le.mpr hgt]

theorem C2_witness :
    sampleConfig.bounds_set (some 2, some 1) =
      Except.error (ConfigError.assertionError, sampleConfig) :=
  C2_bounds_reject sampleConfig 2 1 (by norm_num)

/-- C3: for every string `n` that is a key of the solver registry, assigning
`solver = n` succeeds, and the `solver` getter subsequently returns exactly
the interface module that the registry maps `n` to. -/
theorem C3_solver_set_registered (reg : Registry) (c : Configuration)
    (n : String) (i : ModuleType) (h : reg.lookup n = some i) :
    c.solver_set reg (SolverValue.str n) = Except.ok { c with _solver := some i } ∧
    ({ c with _solver := some i } : Configuration).solver_get = some i :=
  ⟨by simp [Configuration.solver_set, h], rfl⟩

theorem C3_witness :
    sampleConfig.solver_set [("glpk", glpkMod)] (SolverValue.str "glpk") =
      Except.ok { sampleConfig with _solver := some glpkMod } ∧
    ({ sampleConfig with _solver := some glpkMod } : Configuration).solver_get =
      some glpkMod :=
  C3_solver_set_registered [("glpk", glpkMod)] sampleConfig "glpk" glpkMod rfl

/-- C4: for every string not present as a key in the solver registry,
assigning that string to `solver` fails with the `SolverNotFound` error
whose message lists every valid registry name and contains the invalid
value. -/
theorem C4_solver_set_unknown (reg : Registry) (c : Configuration) (s : String)
    (h : reg.lookup s = none) :
    c.solver_set reg (SolverValue.str s) =
      Except.error
        (ConfigError.solverNotFound (notValidMessage (SolverValue.str s) reg), c) ∧
    occursIn s.data (notValidMessage (SolverValue.str s) reg).data ∧
    ∀ k ∈ reg.map Prod.fst,
      occursIn k.data (notValidMessage (SolverValue.str s) reg).data := by
  refine ⟨by simp [Configuration.solver_set, h], ?_, ?_⟩
  · exact display_occursIn_message (SolverValue.str s) reg
  · intro k hk
    exact key_occursIn_message (SolverValue.str s) reg hk

theorem C4_witness :
    sampleConfig.solver_set [("glpk", glpkMod)] (SolverValue.str "mosek") =
      Except.error
        (ConfigError.solverNotFound
          (notValidMessage (SolverValue.str "mosek") [("glpk", glpkMod)]),
         sampleConfig) ∧
    occursIn ("mosek").data
      (notValidMessage (SolverValue.str "mosek") [("glpk", glpkMod)]).data ∧
    ∀ k ∈ ([("glpk", glpkMod)] : Registry).map Prod.fst,
      occursIn k.data
        (notValidMessage (SolverValue.str "mosek") [("glpk", glpkMod)]).data :=
  C4_solver_set_unknown [("glpk", glpkMod)] sampleConfig "mosek" rfl

/-- C5, counterexample: the claim says that for every object with a `Model`
attribute the assignment succeeds.  The source additionally requires
`isinstance(value, types.ModuleType)`: a non-module object carrying a
`Model` attribute is rejected with the `SolverNotFound` error. -/
theorem C5_counterexample :
    Configuration.solver_set [("glpk", glpkMod)] sampleConfig
        (SolverValue.obj true "custom_backend") =
      Except.error
        (ConfigError.solverNotFound
          (notValidMessage (SolverValue.obj true "custom_backend") [("glpk", glpkMod)]),
         sampleConfig) := rfl

/-- C5, amended: the `solver` setter accepts exactly two kinds of input — a
string that is a key of the solver registry, or a module-type object with a
`Model` attribute (for every module exposing `Model`, assignment succeeds
and stores that module); every other input, including a non-module object
that has a `Model` attribute, is rejected with the `SolverNotFound`
error. -/
theorem C5_solver_accepts (reg : Registry) (c : Configuration) (v : SolverValue) :
    ((∃ c', c.solver_set reg v = Except.ok c') ↔
      (∃ s, v = SolverValue.str s ∧ (reg.lookup s).isSome = true) ∨
      (∃ m, v = SolverValue.module m ∧ m.hasModel = true)) ∧
    (∀ m, v = SolverValue.module m → m.hasModel = true →
      c.solver_set reg v = Except.ok { c with _solver := some m }) ∧
    ((∃ c', c.solver_set reg v = Except.ok c') ∨
      c.solver_set reg v =
        Except.error (ConfigError.solverNotFound (notValidMessage v reg), c)) := by
  cases v with
  | str s =>
    refine ⟨⟨?_, ?_⟩, ?_, ?_⟩
    · rintro ⟨c', hc'⟩
      cases hl : reg.lookup s with
      | some i => exact Or.inl ⟨s, rfl, by simp [hl]⟩
      | none => simp [Configuration.solver_set, hl] at hc'
    · rintro (⟨s', hs', hsome⟩ | ⟨m, hm, -⟩)
      · cases hs'
        rcases Option.isSome_iff_exists.mp hsome with ⟨i, hi⟩
        exact ⟨{ c with _solver := some i }, by simp [Configuration.solver_set, hi]⟩
      · cases hm
    · intro m hm
      cases hm
    · cases hl : reg.lookup s with
      | some i =>
        exact Or.inl ⟨{ c with _solver := some i },
          by simp [Configuration.solver_set, hl]⟩
      | none => exact Or.inr (by simp [Configuration.solver_set, hl])
  | module m =>
    refine ⟨⟨?_, ?_⟩, ?_, ?_⟩
    · rintro ⟨c', hc'⟩
      cases hm : m.hasModel with
      | true => exact Or.inr ⟨m, rfl, hm⟩
      | false => simp [Configuration.solver_set, hm] at hc'
    · rintro (⟨s', hs', -⟩ | ⟨m', hm', hmod⟩)
      · cases hs'
      · cases hm'
        exact ⟨{ c with _solver := some m },
          by simp [Configuration.solver_set, hmod]⟩
    · intro m' hm' hmod
      cases hm'
      simp [Configuration.solver_set, hmod]
    · cases hm : m.hasModel with
      | true =>
        exact Or.inl ⟨{ c with _solver := some m },
          by simp [Configuration.solver_set, hm]⟩
      | false => exact Or.inr (by simp [Configuration.solver_set, hm])
  | obj hb o =>
    refine ⟨⟨?_, ?_⟩, ?_, ?_⟩
    · rintro ⟨c', hc'⟩
      simp [Configuration.solver_set] at hc'
    · rintro (⟨s', hs', -⟩ | ⟨m', hm', -⟩)
      · cases hs'
      · cases hm'
    · intro m hm
      cases hm
    · exact Or.inr (by simp [Configuration.solver_set])

theorem C5_witness :
    Configuration.solver_set [("glpk", glpkMod)] sampleConfig
        (SolverValue.module glpkMod) =
      Except.ok { sampleConfig with _solver := some glpkMod } :=
  (C5_solver_accepts [("glpk", glpkMod)] sampleConfig
    (SolverValue.module glpkMod)).2.1 glpkMod rfl rfl

/-- C6: default construction yields `tolerance == 1e-7`,
`bounds == (-1000.0, 1000.0)` and `processes >= 1`; if the detected logical
core count is `N > 1` then `processes == N - 1`, if `N == 1` or detection
fails then `processes == 1`, and the warning is logged exactly in the
detection-failure case. -/
theorem C6_init_defaults (reg : Registry) (cpuCount : Option Nat)
    (hcpu : ∀ n, cpuCount = some n → 1 ≤ n) :
    ∃ c warned, Configuration.init reg cpuCount = Except.ok (c, warned) ∧
      c.tolerance = 1 / 10000000 ∧
      c.bounds_get = (some (-1000), some 1000) ∧
      (∀ p, c.processes = some p → 1 ≤ p) ∧
      (∀ n, cpuCount = some n → 1 < n → c.processes = some (n - 1)) ∧
      (cpuCount = some 1 → c.processes = some 1) ∧
      (cpuCount = none → c.processes = some 1) ∧
      (warned = true ↔ cpuCount = none) := by
  obtain ⟨c2, hok, ht, hlb, hub, hp⟩ :=
    tryCandidates_ok reg ["gurobi", "cplex", "glpk"]
      { _solver := none, tolerance := 1 / 10000000,
        lower_bound := some (-1000), upper_bound := some 1000, processes := none }
  have hinit : Configuration.init reg cpuCount =
      Except.ok (Configuration.set_default_processes cpuCount c2) := by
    have h1000 : ((-1000 : ℚ) ≤ 1000) := by norm_num
    simp [Configuration.init, Configuration.bounds_set, h1000,
      Configuration.set_default_solver] at hok ⊢
    rw [hok]
  refine ⟨(Configuration.set_default_processes cpuCount c2).1,
          (Configuration.set_default_processes cpuCount c2).2,
          hinit, ?_, ?_, ?_, ?_, ?_, ?_, ?_⟩
  · cases cpuCount <;> simpa [Configuration.set_default_processes] using ht
  · cases cpuCount <;>
      simp [Configuration.set_default_processes, Configuration.bounds_get, hlb, hub]
  · intro p hpv
    cases cpuCount with
    | none =>
      have he : (Configuration.set_default_processes none c2).1.processes =
          some 1 := rfl
      rw [he] at hpv
      injection hpv with hpv
      omega
    | some n =>
      have hn := hcpu n rfl
      have he : (Configuration.set_default_processes (some n) c2).1.processes =
          some (if n > 1 then n - 1 else n) := rfl
      rw [he] at hpv
      injection hpv with hpv
      subst hpv
      split <;> omega
  · intro n hn hlt
    cases hn
    have he : (Configuration.set_default_processes (some n) c2).1.processes =
        some (if n > 1 then n - 1 else n) := rfl
    rw [he, if_pos hlt]
  · intro hone
    cases hone
    rfl
  · intro hnone
    cases hnone
    rfl
  · cases cpuCount <;> simp [Configuration.set_default_processes]

theorem C6_witness :
    ∃ c warned, Configuration.init [] (some 4) = Except.ok (c, warned) ∧
      c.tolerance = 1 / 10000000 ∧
      c.bounds_get = (some (-1000), some 1000) ∧
      (∀ p, c.processes = some p → 1 ≤ p) ∧
      (∀ n, (some 4 : Option Nat) = some n → 1 < n → c.processes = some (n - 1)) ∧
      ((some 4 : Option Nat) = some 1 → c.processes = some 1) ∧
      ((some 4 : Option Nat) = none → c.processes = some 1) ∧
      (warned = true ↔ (some 4 : Option Nat) = none) :=
  C6_init_defaults [] (some 4) (fun n hn => by simp at hn; omega)

/-- The name of the property proved for C7: the first of the candidates
`"gurobi"`, `"cplex"`, `"glpk"` (in that order) that the registry knows. -/
def firstRegistered (reg : Registry) : Option ModuleType :=
  match reg.lookup "gurobi" with
  | some i => some i
  | none =>
    match reg.lookup "cplex" with
    | some i => some i
    | none => reg.lookup "glpk"

/-- C7: the default solver is selected by trying `"gurobi"`, `"cplex"`,
`"glpk"` in exactly that order; the first candidate found in the registry
becomes the stored solver and no later candidate is tried, if all three are
absent the stored solver is left as it was (unset after construction), and
no error propagates out of construction. -/
theorem C7_default_solver_priority (reg : Registry) (c : Configuration) :
    (Configuration.set_default_solver reg c =
      Except.ok { c with _solver := (firstRegistered reg).elim c._solver some }) ∧
    ∀ cpuCount : Option Nat, ∃ r, Configuration.init reg cpuCount = Except.ok r := by
  constructor
  · cases hg : reg.lookup "gurobi" <;> cases hc : reg.lookup "cplex" <;>
      cases hk : reg.lookup "glpk" <;>
      simp [Configuration.set_default_solver, tryCandidates,
        Configuration.solver_set, firstRegistered, hg, hc, hk]
  · intro cpuCount
    obtain ⟨c2, hok, -, -, -, -⟩ :=
      tryCandidates_ok reg ["gurobi", "cplex", "glpk"]
        { _solver := none, tolerance := 1 / 10000000,
          lower_bound := some (-1000), upper_bound := some 1000, processes := none }
    refine ⟨Configuration.set_default_processes cpuCount c2, ?_⟩
    have h1000 : ((-1000 : ℚ) ≤ 1000) := by norm_num
    simp [Configuration.init, Configuration.bounds_set, h1000,
      Configuration.set_default_solver] at hok ⊢
    rw [hok]

/-- C8: the invariant "whenever both `lower_bound` and `upper_bound` are
non-null, `lower_bound <= upper_bound`" is established by construction and
preserved by the solver setter and the bounds setter; the bounds setter is
the only operation that could violate it, and it fails the assignment (with
the prior state intact) instead of violating it. -/
theorem C8_bounds_invariant (reg : Registry) :
    (∀ (cpuCount : Option Nat) (c : Configuration) (warned : Bool),
      Configuration.init reg cpuCount = Except.ok (c, warned) → BoundsInv c) ∧
    (∀ (c : Configuration) (v : SolverValue) (c' : Configuration),
      BoundsInv c → c.solver_set reg v = Except.ok c' → BoundsInv c') ∧
    (∀ (c : Configuration) (b : Option ℚ × Option ℚ) (c' : Configuration),
      c.bounds_set b = Except.ok c' → BoundsInv c') ∧
    (∀ (c : Configuration) (lo hi : ℚ), hi < lo →
      c.bounds_set (some lo, some hi) =
        Except.error (ConfigError.assertionError, c)) := by
  refine ⟨?_, ?_, ?_, ?_⟩
  · intro cpuCount c warned hinit
    obtain ⟨c2, hok, -, hlb, hub, -⟩ :=
      tryCandidates_ok reg ["gurobi", "cplex", "glpk"]
        { _solver := none, tolerance := 1 / 10000000,
          lower_bound := some (-1000), upper_bound := some 1000, processes := none }
    have h1000 : ((-1000 : ℚ) ≤ 1000) := by norm_num
    rw [show Configuration.init reg cpuCount =
        (match Configuration.set_default_solver reg
          { _solver := none, tolerance := 1 / 10000000,
            lower_bound := some (-1000), upper_bound := some 1000,
            processes := none } with
        | Except.error e => Except.error e
        | Except.ok c2 =>
            Except.ok (Configuration.set_default_processes cpuCount c2)) from by
          simp [Configuration.init, Configuration.bounds_set, h1000]] at hinit
    rw [show Configuration.set_default_solver reg
        { _solver := none, tolerance := 1 / 10000000,
          lower_bound := some (-1000), upper_bound := some 1000,
          processes := none } = Except.ok c2 from hok] at hinit
    injection hinit with hinit
    intro lo hi hl hu
    have hc : c = (Configuration.set_default_processes cpuCount c2).1 :=
      congrArg Prod.fst hinit.symm
    have hlow : c.lower_bound = c2.lower_bound := by
      rw [hc]; cases cpuCount <;> rfl
    have hup : c.upper_bound = c2.upper_bound := by
      rw [hc]; cases cpuCount <;> rfl
    rw [hlow, hlb] at hl
    rw [hup, hub] at hu
    injection hl with hl
    injection hu with hu
    rw [← hl, ← hu]
    norm_num
  · intro c v c' hinv hset
    cases v with
    | str s =>
      cases hl : reg.lookup s with
      | some i =>
        simp [Configuration.solver_set, hl] at hset
        intro lo hi h1 h2
        rw [← hset] at h1 h2
        exact hinv lo hi h1 h2
      | none => simp [Configuration.solver_set, hl] at hset
    | module m =>
      cases hm : m.hasModel with
      | true =>
        simp [Configuration.solver_set, hm] at hset
        intro lo hi h1 h2
        rw [← hset] at h1 h2
        exact hinv lo hi h1 h2
      | false => simp [Configuration.solver_set, hm] at hset
    | obj hb o => simp [Configuration.solver_set] at hset
  · intro c b c' hset
    rcases b with ⟨lo, hi⟩
    cases lo with
    | none =>
      cases hset
      intro lo' hi' h1 h2
      cases h1
    | some l =>
      cases hi with
      | none =>
        cases hset
        intro lo' hi' h1 h2
        cases h2
      | some u =>
        by_cases hle : l ≤ u
        · rw [show c.bounds_set (some l, some u) =
            Except.ok { c with lower_bound := some l, upper_bound := some u } from by
              simp [Configuration.bounds_set, hle]] at hset
          injection hset with hset
          intro lo' hi' h1 h2
          rw [← hset] at h1 h2
          injection h1 with h1
          injection h2 with h2
          rw [← h1, ← h2]
          exact hle
        · simp [Configuration.bounds_set, hle] at hset
  · intro c lo hi hgt
    simp [Configuration.bounds_set, not_le.mpr hgt]

theorem C8_witness :
    sampleConfig.bounds_set (some 5, some 3) =
      Except.error (ConfigError.assertionError, sampleConfig) :=
  (C8_bounds_invariant []).2.2.2 sampleConfig 5 3 (by norm_num)

/-- C9: the Configuration is a process-wide singleton — two construct-or-fetch
calls return the same instance, and a mutation written into the shared cell
is observed by the next fetch.  (The `Singleton` metaclass itself is not in
the excerpt; `constructOrFetch` is modelled from the spec.) -/
theorem C9_singleton (reg : Registry) (cpuCount : Option Nat)
    (store : Option Configuration) (c1 : Configuration) (s1 : Option Configuration)
    (h : constructOrFetch reg cpuCount store = Except.ok (c1, s1)) :
    s1 = some c1 ∧
    constructOrFetch reg cpuCount s1 = Except.ok (c1, s1) ∧
    ∀ c' : Configuration,
      constructOrFetch reg cpuCount (some c') = Except.ok (c', some c') := by
  have hfetch : ∀ c' : Configuration,
      constructOrFetch reg cpuCount (some c') = Except.ok (c', some c') :=
    fun c' => rfl
  cases store with
  | some c =>
    rw [hfetch c] at h
    injection h with h
    have hc : c1 = c := (congrArg Prod.fst h).symm
    have hs : s1 = some c := (congrArg Prod.snd h).symm
    subst hc
    rw [hs]
    exact ⟨rfl, hfetch c1, hfetch⟩
  | none =>
    cases hi : Configuration.init reg cpuCount with
    | ok r =>
      rcases r with ⟨c, w⟩
      rw [show constructOrFetch reg cpuCount none = Except.ok (c, some c) from by
        simp [constructOrFetch, hi]] at h
      injection h with h
      have hc : c1 = c := (congrArg Prod.fst h).symm
      have hs : s1 = some c := (congrArg Prod.snd h).symm
      subst hc
      rw [hs]
      exact ⟨rfl, hfetch c1, hfetch⟩
    | error e =>
      rw [show constructOrFetch reg cpuCount none = Except.error e from by
        simp [constructOrFetch, hi]] at h
      cases h

theorem C9_witness :
    constructOrFetch [] (some 2) (some sampleConfig) =
      Except.ok (sampleConfig, some sampleConfig) :=
  (C9_singleton [] (some 2) (some sampleConfig) sampleConfig (some sampleConfig)
    rfl).2.1

/-- C10: whenever the solver setter raises, the raise happens before any
field assignment: the state carried by the error is exactly the prior
state, so `_solver`, `tolerance`, `lower_bound`, `upper_bound` and
`processes` are all untouched, and the error is the `SolverNotFound`
one. -/
theorem C10_solver_error_preserves (reg : Registry) (c : Configuration)
    (v : SolverValue) (e : ConfigError) (c' : Configuration)
    (h : c.solver_set reg v = Except.error (e, c')) :
    c' = c ∧ c'._solver = c._solver ∧ c'.tolerance = c.tolerance ∧
    c'.lower_bound = c.lower_bound ∧ c'.upper_bound = c.upper_bound ∧
    c'.processes = c.processes ∧
    e = ConfigError.solverNotFound (notValidMessage v reg) := by
  have hmain : c' = c ∧ e = ConfigError.solverNotFound (notValidMessage v reg) := by
    cases v with
    | str s =>
      cases hl : reg.lookup s with
      | some i => simp [Configuration.solver_set, hl] at h
      | none =>
        rw [show Configuration.solver_set reg c (SolverValue.str s) =
          Except.error
            (ConfigError.solverNotFound (notValidMessage (SolverValue.str s) reg), c)
          from by simp [Configuration.solver_set, hl]] at h
        injection h with h
        exact ⟨(congrArg Prod.snd h).symm, (congrArg Prod.fst h).symm⟩
    | module m =>
      cases hm : m.hasModel with
      | true => simp [Configuration.solver_set, hm] at h
      | false =>
        rw [show Configuration.solver_set reg c (SolverValue.module m) =
          Except.error
            (ConfigError.solverNotFound (notValidMessage (SolverValue.module m) reg), c)
          from by simp [Configuration.solver_set, hm]] at h
        injection h with h
        exact ⟨(congrArg Prod.snd h).symm, (congrArg Prod.fst h).symm⟩
    | obj hb o =>
      injection h with h
      exact ⟨(congrArg Prod.snd h).symm, (congrArg Prod.fst h).symm⟩
  obtain ⟨rfl, he⟩ := hmain
  exact ⟨rfl, rfl, rfl, rfl, rfl, rfl, he⟩

theorem C10_witness :
    sampleConfig = sampleConfig ∧
    sampleConfig._solver = sampleConfig._solver ∧
    sampleConfig.tolerance = sampleConfig.tolerance ∧
    sampleConfig.lower_bound = sampleConfig.lower_bound ∧
    sampleConfig.upper_bound = sampleConfig.upper_bound ∧
    sampleConfig.processes = sampleConfig.processes ∧
    ConfigError.solverNotFound
        (notValidMessage (SolverValue.str "scipy") [("glpk", glpkMod)]) =
      ConfigError.solverNotFound
        (notValidMessage (SolverValue.str "scipy") [("glpk", glpkMod)]) :=
  C10_solver_error_preserves [("glpk", glpkMod)] sampleConfig
    (SolverValue.str "scipy")
    (ConfigError.solverNotFound
      (notValidMessage (SolverValue.str "scipy") [("glpk", glpkMod)]))
    sampleConfig rfl

end Cobra
